import Mathlib

/-!
Verification of the personal-finance chatbot (src/main.py) against its
specification. The Python program is shallowly embedded: JSON/Python values
become the inductive type `PyVal`, each outbound HTTP call is resolved by an
explicit network environment (`Except` for a raised exception versus a
received response), and every function that the spec talks about is
translated line by line. Each client function additionally returns the list
of network calls it performed, so that "no network call is made" and "the
message send is never attempted" are provable statements.
-/

/-- A Python value as produced by `json.loads` / passed around by the
program: `None`, booleans, numbers, strings, lists and dicts. Numbers are
modelled as exact rationals. -/
inductive PyVal where
  | null
  | bool (b : Bool)
  | num (q : ℚ)
  | str (s : String)
  | arr (items : List PyVal)
  | obj (fields : List (String × PyVal))

/-- Python truthiness of an optional string (`os.getenv` result): `None` and
the empty string are falsy. -/
def pyTruthy : Option String → Bool
  | none => false
  | some "" => false
  | some _ => true

/-- Python substring test `needle in hay` for strings. -/
def strHas (needle hay : String) : Bool :=
  (List.range (hay.data.length + 1)).any fun i => needle.data.isPrefixOf (hay.data.drop i)

/-- Python `str.strip()`: remove leading and trailing whitespace. -/
def pyStrip (s : String) : String :=
  String.mk (((s.data.dropWhile Char.isWhitespace).reverse.dropWhile Char.isWhitespace).reverse)

/-- Python `v.get(key, default)`: on a dict, the key's value or the default;
on any other value, an `AttributeError` is raised. -/
def dictGetD (v : PyVal) (key : String) (dflt : PyVal) : Except String PyVal :=
  match v with
  | PyVal.obj fs => Except.ok ((List.lookup key fs).getD dflt)
  | _ => Except.error "object has no attribute get"

/-- Python `s in v` for a string `s`: key membership on dicts, element
equality membership on lists, substring test on strings, `TypeError` on
non-iterables. -/
def pyIn (s : String) (v : PyVal) : Except String Bool :=
  match v with
  | PyVal.obj fs => Except.ok (List.lookup s fs).isSome
  | PyVal.arr xs => Except.ok (xs.any fun x => match x with | PyVal.str t => t = s | _ => false)
  | PyVal.str t => Except.ok (strHas s t)
  | _ => Except.error "argument of type is not iterable"

/-- Python `v[key]` for a string key: dict lookup (or `KeyError`); a
`TypeError` on strings, lists and other values. -/
def pySubscript (v : PyVal) (key : String) : Except String PyVal :=
  match v with
  | PyVal.obj fs =>
    match List.lookup key fs with
    | some x => Except.ok x
    | none => Except.error ("KeyError: " ++ key)
  | PyVal.str _ => Except.error "string indices must be integers"
  | PyVal.arr _ => Except.error "list indices must be integers or slices, not str"
  | _ => Except.error "object is not subscriptable"

/-- Python `for r in v`: lists yield their elements, strings their
characters, dicts their keys; other values raise `TypeError`. -/
def pyIterate : PyVal → Except String (List PyVal)
  | PyVal.arr xs => Except.ok xs
  | PyVal.str s => Except.ok (s.data.map fun c => PyVal.str (String.mk [c]))
  | PyVal.obj fs => Except.ok (fs.map fun kv => PyVal.str kv.1)
  | _ => Except.error "object is not iterable"

/-- The elements of a list as strings; raises `TypeError` at the first
non-string element, as `str.join` does. -/
def as_str_list : List PyVal → Except String (List String)
  | [] => Except.ok []
  | PyVal.str s :: xs =>
    match as_str_list xs with
    | Except.error e => Except.error e
    | Except.ok ss => Except.ok (s :: ss)
  | _ :: _ => Except.error "sequence item: expected str instance"

/-- Python `sep.join(items)`. -/
def pyJoin (sep : String) (xs : List PyVal) : Except String String :=
  match as_str_list xs with
  | Except.error e => Except.error e
  | Except.ok ss => Except.ok (String.intercalate sep ss)

/-- Python `v == "text"`: true exactly on the string `"text"`. -/
def is_text_type : PyVal → Bool
  | PyVal.str t => t == "text"
  | _ => false

/-- Whether a value is a Python string. -/
def is_str : PyVal → Bool
  | PyVal.str _ => true
  | _ => false

mutual
/-- Models `json.dumps` (string escaping elided; separators `", "`/`": "`). -/
def dumps : PyVal → String
  | PyVal.null => "null"
  | PyVal.bool b => if b then "true" else "false"
  | PyVal.num q => if q.den = 1 then toString q.num else toString q
  | PyVal.str s => "\"" ++ s ++ "\""
  | PyVal.arr xs => "[" ++ String.intercalate ", " (dumpsList xs) ++ "]"
  | PyVal.obj fs => "\x7b" ++ String.intercalate ", " (dumpsObj fs) ++ "\x7d"

def dumpsList : List PyVal → List String
  | [] => []
  | x :: xs => dumps x :: dumpsList xs

def dumpsObj : List (String × PyVal) → List String
  | [] => []
  | kv :: xs => ("\"" ++ kv.1 ++ "\": " ++ dumps kv.2) :: dumpsObj xs
end

/-- An HTTP response as the program observes it: the status code, the message
of the `HTTPError` that `raise_for_status` would raise for it, and the result
of `.json()` (a parsed value, or the decode error it raises). -/
structure HttpResponse where
  status : Nat
  err : String
  body : Except String PyVal

/-- `requests.Response.raise_for_status`: raises an `HTTPError` exactly for
status codes in `[400, 600)`. -/
def raise_for_status (r : HttpResponse) : Except String Unit :=
  if 400 ≤ r.status ∧ r.status < 600 then Except.error r.err else Except.ok ()

/-- One outbound network call made by the program, as recorded in a trace. -/
inductive NetCall where
  | hfPost (url : String) (payload : PyVal)
  | watsonCreate
  | watsonMessage (session_id : PyVal) (payload : PyVal)
  | watsonDelete (session_id : PyVal)

def is_create : NetCall → Bool
  | NetCall.watsonCreate => true
  | _ => false

def is_message : NetCall → Bool
  | NetCall.watsonMessage _ _ => true
  | _ => false

def is_delete : NetCall → Bool
  | NetCall.watsonDelete _ => true
  | _ => false

/-- The network environment of `call_watson_assistant`: the outcome of the
session-creation POST, of the message POST (keyed by session id and payload),
and of the teardown DELETE. `Except.error` is a raised exception. -/
structure WatsonNet where
  createSession : Except String HttpResponse
  sendMessage : PyVal → PyVal → Except String HttpResponse
  deleteSession : PyVal → Except String Unit

/-- The JSON payload of the Hugging Face request (main.py lines 36-40). -/
def hf_payload (prompt : String) (max_tokens : Nat) (temperature : ℚ) : PyVal :=
  PyVal.obj
    [("inputs", PyVal.str prompt),
     ("parameters", PyVal.obj
        [("max_new_tokens", PyVal.num max_tokens),
         ("temperature", PyVal.num temperature)]),
     ("options", PyVal.obj [("use_cache", PyVal.bool false)])]

/-- The response-shape handling of `call_hf_inference` (main.py lines 46-51):
a non-empty list whose first element admits `"generated_text"`, then a dict
admitting it, else `json.dumps`. `Except.error` is a raised exception. -/
def hf_extract (data : PyVal) : Except String PyVal :=
  match data with
  | PyVal.arr (d0 :: _) =>
    match pyIn "generated_text" d0 with
    | Except.error e => Except.error e
    | Except.ok true => pySubscript d0 "generated_text"
    | Except.ok false => Except.ok (PyVal.str (dumps data))
  | PyVal.obj fs =>
    match pyIn "generated_text" (PyVal.obj fs) with
    | Except.error e => Except.error e
    | Except.ok true => pySubscript (PyVal.obj fs) "generated_text"
    | Except.ok false => Except.ok (PyVal.str (dumps data))
  | _ => Except.ok (PyVal.str (dumps data))

/-- The `try` block of `call_hf_inference` (main.py lines 41-51): POST, then
`raise_for_status`, then `.json()`, then extraction. -/
def hf_try_body (net : Except String HttpResponse) : Except String PyVal :=
  match net with
  | Except.error e => Except.error e
  | Except.ok resp =>
    match raise_for_status resp with
    | Except.error e => Except.error e
    | Except.ok _ =>
      match resp.body with
      | Except.error e => Except.error e
      | Except.ok data => hf_extract data

/-- `call_hf_inference` (main.py lines 30-53). Returns the Python return
value together with the trace of network calls performed. -/
def call_hf_inference (HUGGINGFACE_API_TOKEN : Option String)
    (GRANITE_MODEL : String) (net : Except String HttpResponse)
    (prompt : String) (model : Option String) (max_tokens : Nat)
    (temperature : ℚ) : PyVal × List NetCall :=
  let model := match model with
    | none => GRANITE_MODEL
    | some m => if m = "" then GRANITE_MODEL else m
  if pyTruthy HUGGINGFACE_API_TOKEN = false then
    (PyVal.str "ERROR: HUGGINGFACE API token not set.", [])
  else
    let url := "https://api-inference.huggingface.co/models/" ++ model
    let payload := hf_payload prompt max_tokens temperature
    match hf_try_body net with
    | Except.ok v => (v, [NetCall.hfPost url payload])
    | Except.error e =>
      (PyVal.str ("Exception calling Hugging Face Inference API: " ++ e),
       [NetCall.hfPost url payload])

/-- The message payload of the Watson message POST (main.py line 68). -/
def watson_payload (message : String) : PyVal :=
  PyVal.obj
    [("input", PyVal.obj
       [("message_type", PyVal.str "text"), ("text", PyVal.str message)])]

/-- The loop of main.py lines 79-82: walk the `generic` entries in order and
collect `r.get("text", "")` of those with `r.get("response_type") == "text"`;
an entry that is not a dict raises. -/
def collect_texts : List PyVal → Except String (List PyVal)
  | [] => Except.ok []
  | r :: rs =>
    match dictGetD r "response_type" PyVal.null with
    | Except.error e => Except.error e
    | Except.ok rt =>
      if is_text_type rt then
        match dictGetD r "text" (PyVal.str "") with
        | Except.error e => Except.error e
        | Except.ok t =>
          match collect_texts rs with
          | Except.error e => Except.error e
          | Except.ok ts => Except.ok (t :: ts)
      else collect_texts rs

/-- `out.get("output", {}).get("generic", [])` iterated as in main.py
lines 80-82. -/
def watson_texts (out : PyVal) : Except String (List PyVal) :=
  match dictGetD out "output" (PyVal.obj []) with
  | Except.error e => Except.error e
  | Except.ok output =>
    match dictGetD output "generic" (PyVal.arr []) with
    | Except.error e => Except.error e
    | Except.ok generic =>
      match pyIterate generic with
      | Except.error e => Except.error e
      | Except.ok items => collect_texts items

/-- main.py line 83: `"\\n".join(texts) if texts else json.dumps(out)`,
together with the text collection it consumes. -/
def watson_after_out (out : PyVal) : Except String PyVal :=
  match watson_texts out with
  | Except.error e => Except.error e
  | Except.ok texts =>
    match texts with
    | [] => Except.ok (PyVal.str (dumps out))
    | _ :: _ =>
      match pyJoin "\\n" texts with
      | Except.error e => Except.error e
      | Except.ok s => Except.ok (PyVal.str s)

/-- The `try` block of `call_watson_assistant` (main.py lines 61-83):
session creation, message send, best-effort teardown whose outcome is
discarded, then text collection. Returns the raised-or-returned value and
the trace of network calls. -/
def watson_try_body (net : WatsonNet) (message : String) :
    Except String PyVal × List NetCall :=
  match net.createSession with
  | Except.error e => (Except.error e, [NetCall.watsonCreate])
  | Except.ok sess =>
    match raise_for_status sess with
    | Except.error e => (Except.error e, [NetCall.watsonCreate])
    | Except.ok _ =>
      match sess.body with
      | Except.error e => (Except.error e, [NetCall.watsonCreate])
      | Except.ok sessJson =>
        match dictGetD sessJson "session_id" PyVal.null with
        | Except.error e => (Except.error e, [NetCall.watsonCreate])
        | Except.ok session_id =>
          match net.sendMessage session_id (watson_payload message) with
          | Except.error e =>
            (Except.error e,
             [NetCall.watsonCreate,
              NetCall.watsonMessage session_id (watson_payload message)])
          | Except.ok resp =>
            match raise_for_status resp with
            | Except.error e =>
              (Except.error e,
               [NetCall.watsonCreate,
                NetCall.watsonMessage session_id (watson_payload message)])
            | Except.ok _ =>
              match resp.body with
              | Except.error e =>
                (Except.error e,
                 [NetCall.watsonCreate,
                  NetCall.watsonMessage session_id (watson_payload message)])
              | Except.ok out =>
                let _teardown := net.deleteSession session_id
                (watson_after_out out,
                 [NetCall.watsonCreate,
                  NetCall.watsonMessage session_id (watson_payload message),
                  NetCall.watsonDelete session_id])

/-- `call_watson_assistant` (main.py lines 56-85). Returns the Python return
value together with the trace of network calls performed. -/
def call_watson_assistant (WATSON_APIKEY WATSON_URL WATSON_ASSISTANT_ID : Option String)
    (net : WatsonNet) (message : String) : PyVal × List NetCall :=
  if (pyTruthy WATSON_APIKEY && pyTruthy WATSON_URL && pyTruthy WATSON_ASSISTANT_ID) = false then
    (PyVal.str "Watson not configured.", [])
  else
    match watson_try_body net message with
    | (Except.ok v, tr) => (v, tr)
    | (Except.error e, tr) =>
      (PyVal.str ("Exception calling Watson Assistant: " ++ e), tr)

/-- The tone text assigned for the student persona (main.py line 90). -/
def student_tone : String :=
  "Clear, friendly, simple. Define financial terms in plain English and give short examples."

/-- The depth text assigned for the student persona (main.py line 91). -/
def student_depth : String :=
  "Provide practical steps a student can follow and a short sample monthly budget table."

/-- The tone text assigned for every other persona (main.py line 93). -/
def professional_tone : String :=
  "Concise, professional, data-forward. Use precise terminology and include numeric examples where helpful."

/-- The depth text assigned for every other persona (main.py line 94). -/
def professional_depth : String :=
  "Provide trade-offs and a recommended allocation by percentage if relevant."

/-- `build_prompt` (main.py lines 88-96). The source's string literals
contain `\\n`, i.e. the two characters backslash-n, which is preserved
here. -/
def build_prompt (user_question : String) (persona : String) : String :=
  let tone := if persona = "student" then student_tone else professional_tone
  let depth := if persona = "student" then student_depth else professional_depth
  "You are a helpful personal finance assistant. " ++ tone ++ " " ++ depth ++
    "\\n\\nUser question: " ++ user_question ++ "\\n\\nOutput:"

/-- Round half up, modelling the rounding of Python's fixed-point `format`
over exact rationals. -/
def ratRound (q : ℚ) : ℤ := Int.floor (q + 0.5)

def padTwo (n : Nat) : String := if n < 10 then "0" ++ toString n else toString n

def commaRevAux : List Char → Nat → List Char
  | [], _ => []
  | c :: cs, n =>
    if n ≠ 0 ∧ n % 3 = 0 then ',' :: c :: commaRevAux cs (n + 1)
    else c :: commaRevAux cs (n + 1)

/-- Decimal digits of a natural number with thousands separators. -/
def commaNat (m : Nat) : String :=
  String.mk ((commaRevAux (toString m).data.reverse 0).reverse)

/-- Fixed-point rendering of a number of cents: sign, grouped integer part,
two decimals. -/
def fmtCents (cents : ℤ) : String :=
  (if cents < 0 then "-" else "") ++ commaNat (cents.natAbs / 100) ++ "." ++
    padTwo (cents.natAbs % 100)

/-- Python `format(q, ",.2f")` over exact rationals. -/
def fmtComma2 (q : ℚ) : String := fmtCents (ratRound (q * 100))

/-- Python `format(q, ".0f")` over exact rationals. -/
def fmtPct0 (q : ℚ) : String := toString (ratRound q)

/-- The three derived amounts of `generate_budget_summary`
(main.py lines 99-101). -/
def budget_amounts (income essentials_pct savings_pct : ℚ) : ℚ × ℚ × ℚ :=
  let essentials := income * essentials_pct
  let savings := income * savings_pct
  let discretionary := income - essentials - savings
  (essentials, savings, discretionary)

/-- `generate_budget_summary` (main.py lines 98-108); the Python defaults are
`essentials_pct = 0.5`, `savings_pct = 0.2`. The source's `\\n` literals are
preserved. -/
def generate_budget_summary (income essentials_pct savings_pct : ℚ) : String :=
  let essentials := income * essentials_pct
  let savings := income * savings_pct
  let discretionary := income - essentials - savings
  "Monthly Budget Summary:\\n" ++
    "Total income: ₹" ++ fmtComma2 income ++ "\\n" ++
    "Essentials (" ++ fmtPct0 (essentials_pct * 100) ++ "%): ₹" ++ fmtComma2 essentials ++ "\\n" ++
    "Savings (" ++ fmtPct0 (savings_pct * 100) ++ "%): ₹" ++ fmtComma2 savings ++ "\\n" ++
    "Discretionary: ₹" ++ fmtComma2 discretionary ++ "\\n"

/-- What the "Get Answer" handler produces (main.py lines 133-154). -/
structure HandlerResult where
  warned : Bool
  prompt : Option String
  response : Option PyVal
  budget_shown : Option String

/-- The "Get Answer" button handler (main.py lines 133-154): warn on blank
question; otherwise build the prompt, append the reference-budget section
when `income > 0`, dispatch on the backend, and show the standalone budget
summary when `income > 0`. -/
def get_answer_handler (user_q persona : String) (income : ℚ) (backend : String)
    (tok : Option String) (granite : String) (hfNet : Except String HttpResponse)
    (wk wu wa : Option String) (wnet : WatsonNet) : HandlerResult :=
  if pyStrip user_q = "" then
    { warned := true, prompt := none, response := none, budget_shown := none }
  else
    let prompt := build_prompt user_q persona
    let prompt :=
      if 0 < income then
        prompt ++ "\\n\\nReference budget (income info):\\n" ++
          generate_budget_summary income 0.5 0.2
      else prompt
    let response :=
      if backend.startsWith "Granite" then
        (call_hf_inference tok granite hfNet prompt (some granite) 400 0.2).1
      else (call_watson_assistant wk wu wa wnet prompt).1
    { warned := false, prompt := some prompt, response := some response,
      budget_shown :=
        if 0 < income then some (generate_budget_summary income 0.5 0.2) else none }

/-- A string is an exception report of the clients: it extends the literal
prefix `"Exception calling"`. -/
def exc_prefixed (s : String) : Prop :=
  ∃ rest, s = "Exception calling" ++ rest

/-- The first shape accepted by `call_hf_inference` per the spec: a non-empty
array whose first element is an object carrying `"generated_text"`. -/
def hf_shape_arr : PyVal → Bool
  | PyVal.arr (PyVal.obj fs :: _) => (List.lookup "generated_text" fs).isSome
  | _ => false

/-- The second shape accepted by `call_hf_inference` per the spec: an object
carrying `"generated_text"`. -/
def hf_shape_obj : PyVal → Bool
  | PyVal.obj fs => (List.lookup "generated_text" fs).isSome
  | _ => false

/-- Bodies on which the probe `"generated_text" in data[0]` either raises a
`TypeError` (first element a number, boolean or `None`) or answers `true`
for a non-dict first element (substring hit on a string, membership hit on a
list), so that the subsequent subscript raises. -/
def hf_probe_misfires : PyVal → Bool
  | PyVal.arr (d0 :: _) =>
    match d0 with
    | PyVal.obj _ => false
    | PyVal.str t => strHas "generated_text" t
    | PyVal.arr ys => ys.any fun y => match y with | PyVal.str s => s = "generated_text" | _ => false
    | _ => true
  | _ => false

/-- The `text` field of a generic entry, defaulting to the empty string. -/
def spec_text_of (fs : List (String × PyVal)) : String :=
  match List.lookup "text" fs with
  | some (PyVal.str s) => s
  | some _ => ""
  | none => ""

/-- Modelled from the spec: "the collected text segments joined by newlines,
in response order" — the generic entries whose `response_type` is `"text"`,
keeping their `text` field (defaulting to the empty string), in order. -/
def spec_collect_texts (gs : List PyVal) : List String :=
  gs.filterMap fun g =>
    match g with
    | PyVal.obj fs =>
      if is_text_type ((List.lookup "response_type" fs).getD PyVal.null) then
        some (spec_text_of fs)
      else none
    | _ => none

/-- A well-formed generic entry: a dict whose `text` bindings, if any, are
strings. -/
def entry_ok : PyVal → Bool
  | PyVal.obj fs => fs.all fun kv => kv.1 != "text" || is_str kv.2
  | _ => false

/-- A Watson message-step response with a single text entry, used to
exercise the teardown behaviour. -/
def c1_out : PyVal :=
  PyVal.obj [("output", PyVal.obj [("generic", PyVal.arr
    [PyVal.obj [("response_type", PyVal.str "text"), ("text", PyVal.str "hello")]])])]

/-- A Watson network in which both POST calls succeed and the teardown
DELETE raises. -/
def c1_net : WatsonNet where
  createSession :=
    Except.ok ⟨200, "", Except.ok (PyVal.obj [("session_id", PyVal.str "s1")])⟩
  sendMessage := fun _ _ => Except.ok ⟨200, "", Except.ok c1_out⟩
  deleteSession := fun _ => Except.error "boom"

/-- First generic entry of the two-text Watson response. -/
def c3_g1 : PyVal :=
  PyVal.obj [("response_type", PyVal.str "text"), ("text", PyVal.str "a")]

/-- Second generic entry of the two-text Watson response. -/
def c3_g2 : PyVal :=
  PyVal.obj [("response_type", PyVal.str "text"), ("text", PyVal.str "b")]

def c3_gs : List PyVal := [c3_g1, c3_g2]

def c3_oofs : List (String × PyVal) := [("generic", PyVal.arr c3_gs)]

def c3_ofs : List (String × PyVal) := [("output", PyVal.obj c3_oofs)]

/-- A Watson message-step response with two text entries, "a" then "b". -/
def c3_out : PyVal := PyVal.obj c3_ofs

/-- A Watson network answering the two-text response. -/
def c3_net : WatsonNet where
  createSession :=
    Except.ok ⟨200, "", Except.ok (PyVal.obj [("session_id", PyVal.str "s1")])⟩
  sendMessage := fun _ _ => Except.ok ⟨200, "", Except.ok c3_out⟩
  deleteSession := fun _ => Except.ok ()

/-! ## Helper lemmas -/

lemma lookup_mem {l : List (String × PyVal)} {k : String} {v : PyVal}
    (h : List.lookup k l = some v) : (k, v) ∈ l := by
  obtain ⟨l₁, l₂, rfl, -⟩ := List.lookup_eq_some_iff.mp h
  simp

lemma as_str_list_map (l : List String) :
    as_str_list (l.map PyVal.str) = Except.ok l := by
  induction l with
  | nil => rfl
  | cons s rest ih => simp [as_str_list, ih]

lemma pyJoin_map (sep : String) (l : List String) :
    pyJoin sep (l.map PyVal.str) = Except.ok (String.intercalate sep l) := by
  simp [pyJoin, as_str_list_map]

lemma is_str_of_entry_ok {fs : List (String × PyVal)} {v : PyVal}
    (h : entry_ok (PyVal.obj fs) = true) (hv : List.lookup "text" fs = some v) :
    ∃ s, v = PyVal.str s := by
  have hmem := lookup_mem hv
  simp only [entry_ok, List.all_eq_true] at h
  have h2 := h ("text", v) hmem
  cases v <;> simp_all [is_str]

lemma collect_texts_eq (gs : List PyVal) (h : ∀ g ∈ gs, entry_ok g = true) :
    collect_texts gs = Except.ok ((spec_collect_texts gs).map PyVal.str) := by
  induction gs with
  | nil => rfl
  | cons g rest ih =>
    have hg : entry_ok g = true := h g (by simp)
    have hrest := ih fun g' hg' => h g' (by simp [hg'])
    cases g with
    | obj fs =>
      by_cases htt : is_text_type ((List.lookup "response_type" fs).getD PyVal.null) = true
      · cases hv : List.lookup "text" fs with
        | none =>
          simp [collect_texts, dictGetD, htt, hrest, spec_collect_texts,
            spec_text_of, hv, List.filterMap_cons]
        | some v =>
          obtain ⟨s, rfl⟩ := is_str_of_entry_ok hg hv
          simp [collect_texts, dictGetD, htt, hrest, spec_collect_texts,
            spec_text_of, hv, List.filterMap_cons]
      · simp [collect_texts, dictGetD, htt, hrest, spec_collect_texts,
          List.filterMap_cons]
    | null => simp [entry_ok] at hg
    | bool b => simp [entry_ok] at hg
    | num q => simp [entry_ok] at hg
    | str s => simp [entry_ok] at hg
    | arr items => simp [entry_ok] at hg

lemma hf_call_extract (tok : Option String) (granite prompt : String)
    (model : Option String) (mt : Nat) (temp : ℚ) (r : HttpResponse) (data : PyVal)
    (htok : pyTruthy tok = true) (hst : raise_for_status r = Except.ok ())
    (hb : r.body = Except.ok data) :
    (call_hf_inference tok granite (Except.ok r) prompt model mt temp).1 =
      (match hf_extract data with
       | Except.ok v => v
       | Except.error e =>
         PyVal.str ("Exception calling Hugging Face Inference API: " ++ e)) := by
  simp only [call_hf_inference, hf_try_body, htok, hst, hb]
  cases h : hf_extract data <;> simp

lemma hf_call_err (tok : Option String) (granite prompt : String)
    (model : Option String) (mt : Nat) (temp : ℚ)
    (net : Except String HttpResponse) (e : String)
    (htok : pyTruthy tok = true) (herr : hf_try_body net = Except.error e) :
    (call_hf_inference tok granite net prompt model mt temp).1 =
      PyVal.str ("Exception calling Hugging Face Inference API: " ++ e) := by
  simp only [call_hf_inference, htok, herr]
  simp

lemma watson_call_of_cfg (wk wu wa : Option String) (net : WatsonNet) (msg : String)
    (h : (pyTruthy wk && pyTruthy wu && pyTruthy wa) = true) :
    call_watson_assistant wk wu wa net msg =
      ((match (watson_try_body net msg).1 with
        | Except.ok v => v
        | Except.error e =>
          PyVal.str ("Exception calling Watson Assistant: " ++ e)),
       (watson_try_body net msg).2) := by
  rcases hw : watson_try_body net msg with ⟨res, tr⟩
  cases res <;> simp [call_watson_assistant, h, hw]

lemma watson_try_body_success (net : WatsonNet) (msg : String)
    (sresp mresp : HttpResponse) (sjson sid out : PyVal)
    (h1 : net.createSession = Except.ok sresp)
    (h2 : raise_for_status sresp = Except.ok ())
    (h3 : sresp.body = Except.ok sjson)
    (h4 : dictGetD sjson "session_id" PyVal.null = Except.ok sid)
    (h5 : net.sendMessage sid (watson_payload msg) = Except.ok mresp)
    (h6 : raise_for_status mresp = Except.ok ())
    (h7 : mresp.body = Except.ok out) :
    watson_try_body net msg =
      (watson_after_out out,
       [NetCall.watsonCreate,
        NetCall.watsonMessage sid (watson_payload msg),
        NetCall.watsonDelete sid]) := by
  simp only [watson_try_body, h1, h2, h3, h4, h5, h6, h7]

lemma watson_try_body_create_fails (net : WatsonNet) (msg e : String)
    (h : net.createSession = Except.error e ∨
      ∃ r, net.createSession = Except.ok r ∧ raise_for_status r = Except.error e) :
    watson_try_body net msg = (Except.error e, [NetCall.watsonCreate]) := by
  rcases h with h | ⟨r, h1, h2⟩
  · simp only [watson_try_body, h]
  · simp only [watson_try_body, h1, h2]

lemma watson_trace_forms (net : WatsonNet) (msg : String) :
    (watson_try_body net msg).2 = [NetCall.watsonCreate] ∨
    (∃ sid, (watson_try_body net msg).2 =
      [NetCall.watsonCreate, NetCall.watsonMessage sid (watson_payload msg)]) ∨
    (∃ sid, (watson_try_body net msg).2 =
      [NetCall.watsonCreate, NetCall.watsonMessage sid (watson_payload msg),
       NetCall.watsonDelete sid]) := by
  unfold watson_try_body
  repeat' split
  all_goals simp

lemma watson_counts (wk wu wa : Option String) (net : WatsonNet) (msg : String) :
    (call_watson_assistant wk wu wa net msg).2.countP is_create ≤ 1 ∧
    (call_watson_assistant wk wu wa net msg).2.countP is_message ≤ 1 ∧
    (call_watson_assistant wk wu wa net msg).2.countP is_delete ≤ 1 := by
  cases hc : (pyTruthy wk && pyTruthy wu && pyTruthy wa) with
  | false =>
    simp [call_watson_assistant, hc]
  | true =>
    rw [watson_call_of_cfg wk wu wa net msg hc]
    rcases watson_trace_forms net msg with h | ⟨sid, h⟩ | ⟨sid, h⟩ <;>
      simp [h, List.countP_cons, is_create, is_message, is_delete]

lemma hf_extract_arr_hit (fs : List (String × PyVal)) (rest : List PyVal) (v : PyVal)
    (hv : List.lookup "generated_text" fs = some v) :
    hf_extract (PyVal.arr (PyVal.obj fs :: rest)) = Except.ok v := by
  simp [hf_extract, pyIn, pySubscript, hv]

lemma hf_extract_obj_hit (fs : List (String × PyVal)) (v : PyVal)
    (hv : List.lookup "generated_text" fs = some v) :
    hf_extract (PyVal.obj fs) = Except.ok v := by
  simp [hf_extract, pyIn, pySubscript, hv]

lemma hf_extract_fallback (data : PyVal)
    (h1 : hf_shape_arr data = false) (h2 : hf_shape_obj data = false)
    (h3 : hf_probe_misfires data = false) :
    hf_extract data = Except.ok (PyVal.str (dumps data)) := by
  cases data with
  | null => rfl
  | bool b => rfl
  | num q => rfl
  | str s => rfl
  | arr items =>
    cases items with
    | nil => rfl
    | cons d0 rest =>
      cases d0 with
      | obj fs =>
        simp only [hf_shape_arr] at h1
        simp [hf_extract, pyIn, h1]
      | str t =>
        simp only [hf_probe_misfires] at h3
        simp [hf_extract, pyIn, h3]
      | arr ys =>
        simp only [hf_probe_misfires] at h3
        simp [hf_extract, pyIn, h3]
      | null => simp [hf_probe_misfires] at h3
      | bool b => simp [hf_probe_misfires] at h3
      | num q => simp [hf_probe_misfires] at h3
  | obj fs =>
    simp only [hf_shape_obj] at h2
    simp [hf_extract, pyIn, h2]

lemma watson_after_out_empty (out : PyVal)
    (h : watson_texts out = Except.ok []) :
    watson_after_out out = Except.ok (PyVal.str (dumps out)) := by
  simp [watson_after_out, h]

lemma watson_after_out_nonempty (out : PyVal) (s : String) (l : List String)
    (h : watson_texts out = Except.ok ((s :: l).map PyVal.str)) :
    watson_after_out out =
      Except.ok (PyVal.str (String.intercalate "\\n" (s :: l))) := by
  have hj := pyJoin_map "\\n" (s :: l)
  simp only [List.map_cons] at h hj
  simp [watson_after_out, h, hj]

/-! ## Claims -/

/-- Claim C1, amended: every exception raised inside the `try` block of
either client — in particular every exception of the POST network calls, of
`raise_for_status`, and of response processing — is caught and converted to
a string extending the prefix "Exception calling", and is never propagated;
the best-effort teardown DELETE is the exception: its outcome (raised or
not) is discarded entirely and never influences the result. -/
theorem claim_C1 :
    (∀ (tok : Option String) (granite prompt : String) (model : Option String)
       (mt : Nat) (temp : ℚ) (net : Except String HttpResponse) (e : String),
       pyTruthy tok = true → hf_try_body net = Except.error e →
       (call_hf_inference tok granite net prompt model mt temp).1 =
         PyVal.str ("Exception calling Hugging Face Inference API: " ++ e) ∧
       exc_prefixed ("Exception calling Hugging Face Inference API: " ++ e)) ∧
    (∀ (wk wu wa : Option String) (net : WatsonNet) (msg e : String),
       (pyTruthy wk && pyTruthy wu && pyTruthy wa) = true →
       (watson_try_body net msg).1 = Except.error e →
       (call_watson_assistant wk wu wa net msg).1 =
         PyVal.str ("Exception calling Watson Assistant: " ++ e) ∧
       exc_prefixed ("Exception calling Watson Assistant: " ++ e)) ∧
    (∀ (wk wu wa : Option String) (cs : Except String HttpResponse)
       (sm : PyVal → PyVal → Except String HttpResponse)
       (d1 d2 : PyVal → Except String Unit) (msg : String),
       call_watson_assistant wk wu wa ⟨cs, sm, d1⟩ msg =
         call_watson_assistant wk wu wa ⟨cs, sm, d2⟩ msg) := by
  refine ⟨?_, ?_, ?_⟩
  · intro tok granite prompt model mt temp net e htok herr
    refine ⟨hf_call_err tok granite prompt model mt temp net e htok herr, ?_⟩
    refine ⟨" Hugging Face Inference API: " ++ e, ?_⟩
    rw [← String.append_assoc]
    rfl
  · intro wk wu wa net msg e hcfg herr
    constructor
    · rw [watson_call_of_cfg wk wu wa net msg hcfg]
      simp [herr]
    · refine ⟨" Watson Assistant: " ++ e, ?_⟩
      rw [← String.append_assoc]
      rfl
  · intro wk wu wa cs sm d1 d2 msg
    rfl

/-- Witness for C1: a POST that raises "boom" yields the exception string. -/
theorem claim_C1_wit :
    (call_hf_inference (some "t") "m" (Except.error "boom") "p" none 300 0).1 =
      PyVal.str ("Exception calling Hugging Face Inference API: " ++ "boom") ∧
    exc_prefixed ("Exception calling Hugging Face Inference API: " ++ "boom") :=
  claim_C1.1 (some "t") "m" "p" none 300 0 (Except.error "boom") "boom" rfl rfl

/-- Counterexample to C1 as stated: on `c1_net` the teardown DELETE is a
network call that raises, yet the function returns the collected text
"hello", which does not carry the "Exception calling" prefix. -/
theorem claim_C1_cex :
    c1_net.deleteSession (PyVal.str "s1") = Except.error "boom" ∧
    (call_watson_assistant (some "k") (some "u") (some "a") c1_net "hi").2 =
      [NetCall.watsonCreate,
       NetCall.watsonMessage (PyVal.str "s1") (watson_payload "hi"),
       NetCall.watsonDelete (PyVal.str "s1")] ∧
    (call_watson_assistant (some "k") (some "u") (some "a") c1_net "hi").1 =
      PyVal.str "hello" ∧
    ¬ exc_prefixed "hello" := by
  refine ⟨rfl, rfl, rfl, ?_⟩
  rintro ⟨rest, h⟩
  have hlen := congrArg String.length h
  rw [String.length_append] at hlen
  have h5 : ("hello" : String).length = 5 := rfl
  have h17 : ("Exception calling" : String).length = 17 := rfl
  rw [h5, h17] at hlen
  omega

/-- Claim C2, amended: on a successful JSON body, `call_hf_inference`
returns the `"generated_text"` field verbatim for the two documented shapes;
for a body matching neither shape it returns the serialized body, except
when the first element of an array body makes the membership probe
`"generated_text" in data[0]` raise a `TypeError` (a number, boolean or
`None`) or answer true on a non-dict (substring hit on a string, membership
hit on a list), in which case an exception-description string results. -/
theorem claim_C2 :
    ∀ (tok : Option String) (granite prompt : String) (model : Option String)
      (mt : Nat) (temp : ℚ) (r : HttpResponse) (data : PyVal),
      pyTruthy tok = true → raise_for_status r = Except.ok () →
      r.body = Except.ok data →
      (∀ fs rest v, data = PyVal.arr (PyVal.obj fs :: rest) →
         List.lookup "generated_text" fs = some v →
         (call_hf_inference tok granite (Except.ok r) prompt model mt temp).1 = v) ∧
      (∀ fs v, data = PyVal.obj fs →
         List.lookup "generated_text" fs = some v →
         (call_hf_inference tok granite (Except.ok r) prompt model mt temp).1 = v) ∧
      (hf_shape_arr data = false → hf_shape_obj data = false →
       hf_probe_misfires data = false →
       (call_hf_inference tok granite (Except.ok r) prompt model mt temp).1 =
         PyVal.str (dumps data)) := by
  intro tok granite prompt model mt temp r data htok hst hb
  have hcall := hf_call_extract tok granite prompt model mt temp r data htok hst hb
  refine ⟨?_, ?_, ?_⟩
  · rintro fs rest v rfl hv
    rw [hcall, hf_extract_arr_hit fs rest v hv]
  · rintro fs v rfl hv
    rw [hcall, hf_extract_obj_hit fs v hv]
  · intro h1 h2 h3
    rw [hcall, hf_extract_fallback data h1 h2 h3]

/-- Witness for C2: a single-element array whose object carries
`"generated_text"` yields that field verbatim. -/
theorem claim_C2_wit :
    (call_hf_inference (some "t") "m"
       (Except.ok ⟨200, "",
          Except.ok (PyVal.arr [PyVal.obj [("generated_text", PyVal.str "hi")]])⟩)
       "p" none 300 0).1 = PyVal.str "hi" :=
  (claim_C2 (some "t") "m" "p" none 300 0
      ⟨200, "", Except.ok (PyVal.arr [PyVal.obj [("generated_text", PyVal.str "hi")]])⟩
      (PyVal.arr [PyVal.obj [("generated_text", PyVal.str "hi")]])
      rfl rfl rfl).1
    [("generated_text", PyVal.str "hi")] [] (PyVal.str "hi") rfl rfl

/-- Counterexample to C2 as stated: the successful body `[null]` matches
neither documented shape, yet the function returns an exception-description
string — the probe `"generated_text" in None` raises — instead of the
serialized body `"[null]"`. -/
theorem claim_C2_cex :
    (call_hf_inference (some "t") "m"
       (Except.ok ⟨200, "", Except.ok (PyVal.arr [PyVal.null])⟩) "p" none 300 0).1 =
      PyVal.str "Exception calling Hugging Face Inference API: argument of type is not iterable" ∧
    hf_shape_arr (PyVal.arr [PyVal.null]) = false ∧
    hf_shape_obj (PyVal.arr [PyVal.null]) = false ∧
    "Exception calling Hugging Face Inference API: argument of type is not iterable" ≠
      dumps (PyVal.arr [PyVal.null]) := by
  refine ⟨rfl, rfl, rfl, ?_⟩
  decide

/-- Claim C3, amended: for a message-step response that is an object whose
well-formed generic entries are objects with string `text` fields,
`call_watson_assistant` returns the texts of exactly the entries whose
`response_type` is `"text"`, in response order, joined by the literal
two-character separator backslash-n that the source writes (`"\\n"`), not by
a newline character; if no such entries exist it returns the serialized
response body. -/
theorem claim_C3 :
    ∀ (wk wu wa : Option String) (net : WatsonNet) (msg : String)
      (sresp mresp : HttpResponse) (sjson sid : PyVal)
      (ofs oofs : List (String × PyVal)) (gs : List PyVal),
      (pyTruthy wk && pyTruthy wu && pyTruthy wa) = true →
      net.createSession = Except.ok sresp →
      raise_for_status sresp = Except.ok () →
      sresp.body = Except.ok sjson →
      dictGetD sjson "session_id" PyVal.null = Except.ok sid →
      net.sendMessage sid (watson_payload msg) = Except.ok mresp →
      raise_for_status mresp = Except.ok () →
      mresp.body = Except.ok (PyVal.obj ofs) →
      List.lookup "output" ofs = some (PyVal.obj oofs) →
      List.lookup "generic" oofs = some (PyVal.arr gs) →
      (∀ g ∈ gs, entry_ok g = true) →
      (spec_collect_texts gs ≠ [] →
        (call_watson_assistant wk wu wa net msg).1 =
          PyVal.str (String.intercalate "\\n" (spec_collect_texts gs))) ∧
      (spec_collect_texts gs = [] →
        (call_watson_assistant wk wu wa net msg).1 =
          PyVal.str (dumps (PyVal.obj ofs))) := by
  intro wk wu wa net msg sresp mresp sjson sid ofs oofs gs hcfg h1 h2 h3 h4 h5 h6 h7 ho hg hok
  have htb := watson_try_body_success net msg sresp mresp sjson sid (PyVal.obj ofs)
    h1 h2 h3 h4 h5 h6 h7
  have htexts : watson_texts (PyVal.obj ofs) =
      Except.ok ((spec_collect_texts gs).map PyVal.str) := by
    simp [watson_texts, dictGetD, ho, hg, pyIterate, collect_texts_eq gs hok]
  have hres : (call_watson_assistant wk wu wa net msg).1 =
      (match watson_after_out (PyVal.obj ofs) with
       | Except.ok v => v
       | Except.error e =>
         PyVal.str ("Exception calling Watson Assistant: " ++ e)) := by
    rw [watson_call_of_cfg wk wu wa net msg hcfg, htb]
  constructor
  · intro hne
    rcases hl : spec_collect_texts gs with _ | ⟨s, l⟩
    · exact absurd hl hne
    · rw [hl] at htexts
      rw [hres, watson_after_out_nonempty (PyVal.obj ofs) s l htexts]
  · intro he
    rw [he] at htexts
    simp only [List.map_nil] at htexts
    rw [hres, watson_after_out_empty (PyVal.obj ofs) htexts]

/-- Witness for C3: the two-text response of `c3_net` yields the two texts
joined by the source's literal `"\\n"` separator. -/
theorem claim_C3_wit :
    (call_watson_assistant (some "k") (some "u") (some "a") c3_net "hi").1 =
      PyVal.str (String.intercalate "\\n" (spec_collect_texts c3_gs)) :=
  (claim_C3 (some "k") (some "u") (some "a") c3_net "hi"
      ⟨200, "", Except.ok (PyVal.obj [("session_id", PyVal.str "s1")])⟩
      ⟨200, "", Except.ok c3_out⟩
      (PyVal.obj [("session_id", PyVal.str "s1")]) (PyVal.str "s1")
      c3_ofs c3_oofs c3_gs
      rfl rfl rfl rfl rfl rfl rfl rfl rfl rfl (by decide)).1 (by decide)

/-- Counterexample to C3 as stated: on the two-text response the function
returns "a\\nb" — the texts joined by the two characters backslash-n — which
differs from the newline-joined "a\nb" the claim promises. -/
theorem claim_C3_cex :
    (call_watson_assistant (some "k") (some "u") (some "a") c3_net "hi").1 =
      PyVal.str "a\\nb" ∧
    spec_collect_texts c3_gs = ["a", "b"] ∧
    String.intercalate "\n" ["a", "b"] = "a\nb" ∧
    PyVal.str "a\\nb" ≠ PyVal.str "a\nb" := by
  refine ⟨rfl, by decide, rfl, ?_⟩
  intro h
  rw [PyVal.str.injEq] at h
  exact absurd h (by decide)

/-- Claim C4: with the Hugging Face credential falsy the inference client
returns the "token not set" error string making no network call, and with
any Watson configuration value falsy the assistant client returns
"Watson not configured." making no network call. -/
theorem claim_C4 :
    (∀ (tok : Option String) (granite prompt : String) (model : Option String)
       (mt : Nat) (temp : ℚ) (net : Except String HttpResponse),
       pyTruthy tok = false →
       call_hf_inference tok granite net prompt model mt temp =
         (PyVal.str "ERROR: HUGGINGFACE API token not set.", []) ∧
       strHas "token not set" "ERROR: HUGGINGFACE API token not set." = true) ∧
    (∀ (wk wu wa : Option String) (net : WatsonNet) (msg : String),
       (pyTruthy wk && pyTruthy wu && pyTruthy wa) = false →
       call_watson_assistant wk wu wa net msg =
         (PyVal.str "Watson not configured.", [])) := by
  constructor
  · intro tok granite prompt model mt temp net htok
    exact ⟨by simp [call_hf_inference, htok], by decide⟩
  · intro wk wu wa net msg hcfg
    simp [call_watson_assistant, hcfg]

/-- Witness for C4: an unset token and three empty Watson values. -/
theorem claim_C4_wit :
    (call_hf_inference none "m" (Except.error "x") "p" none 300 0 =
       (PyVal.str "ERROR: HUGGINGFACE API token not set.", []) ∧
     strHas "token not set" "ERROR: HUGGINGFACE API token not set." = true) ∧
    call_watson_assistant (some "") (some "") (some "")
        ⟨Except.error "x", fun _ _ => Except.error "x", fun _ => Except.ok ()⟩ "m" =
      (PyVal.str "Watson not configured.", []) :=
  ⟨claim_C4.1 none "m" "p" none 300 0 (Except.error "x") rfl,
   claim_C4.2 (some "") (some "") (some "")
     ⟨Except.error "x", fun _ _ => Except.error "x", fun _ => Except.ok ()⟩ "m" rfl⟩

/-- Claim C5: for both personas and any non-empty question, `build_prompt`
contains the literal question text and ends with the marker "Output:". -/
theorem claim_C5 (q persona : String) (hq : q ≠ "")
    (hp : persona = "student" ∨ persona = "professional") :
    (∃ a b, build_prompt q persona = a ++ (q ++ b)) ∧
    (∃ pre, build_prompt q persona = pre ++ "Output:") := by
  constructor
  · refine ⟨"You are a helpful personal finance assistant. " ++
      (if persona = "student" then student_tone else professional_tone) ++ " " ++
      (if persona = "student" then student_depth else professional_depth) ++
      "\\n\\nUser question: ", "\\n\\nOutput:", ?_⟩
    exact String.append_assoc _ q _
  · refine ⟨"You are a helpful personal finance assistant. " ++
      (if persona = "student" then student_tone else professional_tone) ++ " " ++
      (if persona = "student" then student_depth else professional_depth) ++
      "\\n\\nUser question: " ++ q ++ "\\n\\n", ?_⟩
    exact (String.append_assoc _ "\\n\\n" "Output:").symm

/-- Witness for C5 at the student persona and a concrete question. -/
theorem claim_C5_wit :
    (∃ a b, build_prompt "How do I save money?" "student" =
      a ++ ("How do I save money?" ++ b)) ∧
    (∃ pre, build_prompt "How do I save money?" "student" = pre ++ "Output:") :=
  claim_C5 "How do I save money?" "student" (by decide) (Or.inl rfl)

/-- Claim C6: with the default fractions the three amounts always recompose
the income exactly (over exact rational arithmetic), and the discretionary
amount is the remainder income minus essentials minus savings. -/
theorem claim_C6 (income : ℚ) (h : 0 < income) :
    (budget_amounts income 0.5 0.2).1 + (budget_amounts income 0.5 0.2).2.1 +
        (budget_amounts income 0.5 0.2).2.2 = income ∧
    (budget_amounts income 0.5 0.2).2.2 =
      income - (budget_amounts income 0.5 0.2).1 -
        (budget_amounts income 0.5 0.2).2.1 := by
  refine ⟨?_, ?_⟩
  · dsimp only [budget_amounts]
    ring
  · dsimp only [budget_amounts]

/-- Witness for C6 at income 30000. -/
theorem claim_C6_wit :
    (budget_amounts 30000 0.5 0.2).1 + (budget_amounts 30000 0.5 0.2).2.1 +
        (budget_amounts 30000 0.5 0.2).2.2 = 30000 ∧
    (budget_amounts 30000 0.5 0.2).2.2 =
      30000 - (budget_amounts 30000 0.5 0.2).1 -
        (budget_amounts 30000 0.5 0.2).2.1 :=
  claim_C6 30000 (by norm_num)

/-- Claim C7: at income 30000 with fractions 0.5 and 0.2 the three amounts
are 15000, 6000 and 9000, and the report renders them as 15,000.00,
6,000.00 and 9,000.00. -/
theorem claim_C7 :
    budget_amounts 30000 0.5 0.2 = (15000, 6000, 9000) ∧
    generate_budget_summary 30000 0.5 0.2 =
      "Monthly Budget Summary:\\nTotal income: ₹30,000.00\\nEssentials (50%): ₹15,000.00\\nSavings (20%): ₹6,000.00\\nDiscretionary: ₹9,000.00\\n" := by
  constructor
  · dsimp only [budget_amounts]
    norm_num [Prod.ext_iff]
  · have r1 : ratRound ((30000 : ℚ) * 100) = 3000000 := by
      unfold ratRound; exact Int.floor_eq_iff.mpr (by norm_num)
    have r2 : ratRound ((30000 : ℚ) * 0.5 * 100) = 1500000 := by
      unfold ratRound; exact Int.floor_eq_iff.mpr (by norm_num)
    have r3 : ratRound ((30000 : ℚ) * 0.2 * 100) = 600000 := by
      unfold ratRound; exact Int.floor_eq_iff.mpr (by norm_num)
    have r4 : ratRound (((30000 : ℚ) - 30000 * 0.5 - 30000 * 0.2) * 100) = 900000 := by
      unfold ratRound; exact Int.floor_eq_iff.mpr (by norm_num)
    have r5 : ratRound ((0.5 : ℚ) * 100) = 50 := by
      unfold ratRound; exact Int.floor_eq_iff.mpr (by norm_num)
    have r6 : ratRound ((0.2 : ℚ) * 100) = 20 := by
      unfold ratRound; exact Int.floor_eq_iff.mpr (by norm_num)
    dsimp only [generate_budget_summary, fmtComma2, fmtPct0]
    rw [r1, r2, r3, r4, r5, r6]
    decide

/-- Claim C8: with a non-blank question the handler appends the
reference-budget section to the prompt exactly when income is positive. -/
theorem claim_C8 (q persona : String) (income : ℚ) (backend : String)
    (tok : Option String) (granite : String) (hfNet : Except String HttpResponse)
    (wk wu wa : Option String) (wnet : WatsonNet)
    (hq : ¬ pyStrip q = "") :
    (income = 0 →
      (get_answer_handler q persona income backend tok granite hfNet wk wu wa wnet).prompt =
        some (build_prompt q persona)) ∧
    (0 < income →
      (get_answer_handler q persona income backend tok granite hfNet wk wu wa wnet).prompt =
        some (build_prompt q persona ++ "\\n\\nReference budget (income info):\\n" ++
          generate_budget_summary income 0.5 0.2)) := by
  constructor
  · rintro rfl
    simp [get_answer_handler, hq]
  · intro hpos
    simp [get_answer_handler, hq, hpos]

/-- Witness for C8 at income 0 and income 100. -/
theorem claim_C8_wit :
    ((get_answer_handler "Q" "student" 0 "Granite" none "m" (Except.error "x")
        none none none
        ⟨Except.error "x", fun _ _ => Except.error "x", fun _ => Except.ok ()⟩).prompt =
      some (build_prompt "Q" "student")) ∧
    ((get_answer_handler "Q" "student" 100 "Granite" none "m" (Except.error "x")
        none none none
        ⟨Except.error "x", fun _ _ => Except.error "x", fun _ => Except.ok ()⟩).prompt =
      some (build_prompt "Q" "student" ++ "\\n\\nReference budget (income info):\\n" ++
        generate_budget_summary 100 0.5 0.2)) :=
  ⟨(claim_C8 "Q" "student" 0 "Granite" none "m" (Except.error "x") none none none
      ⟨Except.error "x", fun _ _ => Except.error "x", fun _ => Except.ok ()⟩
      (by decide)).1 rfl,
   (claim_C8 "Q" "student" 100 "Granite" none "m" (Except.error "x") none none none
      ⟨Except.error "x", fun _ _ => Except.error "x", fun _ => Except.ok ()⟩
      (by decide)).2 (by norm_num)⟩

/-- Claim C9: a failing session-creation call (a raised POST or a failing
`raise_for_status`) aborts the sequence with the error text and a trace
holding only the creation call — message send is never attempted — and in
every run each of the three protocol steps occurs at most once in the
trace. -/
theorem claim_C9 :
    ∀ (wk wu wa : Option String) (net : WatsonNet) (msg e : String),
      (pyTruthy wk && pyTruthy wu && pyTruthy wa) = true →
      (net.createSession = Except.error e ∨
        ∃ r, net.createSession = Except.ok r ∧ raise_for_status r = Except.error e) →
      call_watson_assistant wk wu wa net msg =
        (PyVal.str ("Exception calling Watson Assistant: " ++ e),
         [NetCall.watsonCreate]) ∧
      (∀ (net2 : WatsonNet) (msg2 : String),
        (call_watson_assistant wk wu wa net2 msg2).2.countP is_create ≤ 1 ∧
        (call_watson_assistant wk wu wa net2 msg2).2.countP is_message ≤ 1 ∧
        (call_watson_assistant wk wu wa net2 msg2).2.countP is_delete ≤ 1) := by
  intro wk wu wa net msg e hcfg hfail
  constructor
  · have htb := watson_try_body_create_fails net msg e hfail
    rw [watson_call_of_cfg wk wu wa net msg hcfg, htb]
  · intro net2 msg2
    exact watson_counts wk wu wa net2 msg2

/-- Witness for C9: a session-creation POST that raises "boom". -/
theorem claim_C9_wit :
    call_watson_assistant (some "k") (some "u") (some "a")
        ⟨Except.error "boom", fun _ _ => Except.error "x", fun _ => Except.ok ()⟩ "m" =
      (PyVal.str ("Exception calling Watson Assistant: " ++ "boom"),
       [NetCall.watsonCreate]) :=
  (claim_C9 (some "k") (some "u") (some "a")
      ⟨Except.error "boom", fun _ _ => Except.error "x", fun _ => Except.ok ()⟩ "m" "boom"
      rfl (Or.inl rfl)).1

/-- Claim C10: any persona other than "student" — including strings outside
the documented two-value set — selects the professional tone and depth
texts; the persona is never validated. -/
theorem claim_C10 (q persona : String) (h : persona ≠ "student") :
    build_prompt q persona =
      "You are a helpful personal finance assistant. " ++ professional_tone ++ " " ++
        professional_depth ++ "\\n\\nUser question: " ++ q ++ "\\n\\nOutput:" := by
  unfold build_prompt
  rw [if_neg h, if_neg h]

/-- Witness for C10 at the empty-string persona. -/
theorem claim_C10_wit :
    build_prompt "Q" "" =
      "You are a helpful personal finance assistant. " ++ professional_tone ++ " " ++
        professional_depth ++ "\\n\\nUser question: " ++ "Q" ++ "\\n\\nOutput:" :=
  claim_C10 "Q" "" (by decide)
